import Mathlib

/-!
Verification of the curl-asio bridge (`src/curl_asio.hpp`) against its
natural-language specification.

The single C++ header glues libcurl's multi interface to a boost::asio
reactor.  We shallowly embed the state manipulated by the bridge
(`transfer`, `socketinfo`, `implementation`) and translate each relevant
member function into a pure Lean function.  Calls into external
collaborators (libcurl, asio, the OS socket layer, user callbacks) are
modelled as explicit oracle parameters for their outcomes, and side
effects that are only visible to those collaborators (issuing an async
wait, cancelling the timer, invoking `on_done`) are recorded in an event
trace, so that ordering claims can be stated about the trace.
-/

namespace CurlAsio

/-! ### libcurl / OS constants (values from `curl/curl.h` and `sys/socket.h`) -/

def CURL_POLL_NONE : Nat := 0
def CURL_POLL_IN : Nat := 1
def CURL_POLL_OUT : Nat := 2
def CURL_POLL_INOUT : Nat := 3
def CURL_POLL_REMOVE : Nat := 4

/-- `CURL_WRITEFUNC_PAUSE = 0x10000001`: the sentinel a curl write callback
returns to pause delivery. -/
def CURL_WRITEFUNC_PAUSE : Nat := 0x10000001

/-- libcurl delivers at most `CURL_MAX_WRITE_SIZE` (16384) bytes per
invocation of the write callback, so every real chunk size is below the
pause sentinel. -/
def CURL_MAX_WRITE_SIZE : Nat := 16384

def SOCK_STREAM : Nat := 1
def SOCK_DGRAM : Nat := 2
def AF_INET : Nat := 2
def AF_INET6 : Nat := 10

/-! ### Data model -/

/-- `curl_asio::data_action::type`: the classifier's answer for one chunk. -/
inductive DataAction where
  | success
  | pause
  | abort
deriving Repr, DecidableEq

/-- State of one `curl_asio::transfer` object.

* `implAlive` models `impl_` being non-null (it is reset by
  `transfer::terminate`);
* `callbackRecursions` is the member `callback_recursions_`;
* `hasHandle` models `handle_` being non-null;
* `running` is `running_`;
* `url` is `url_`;
* `locked` models the self-reference `lock_` being held;
* `hasOnDone` / `hasOnDataRead` model the user callbacks `on_done` /
  `on_data_read` being set. -/
structure Transfer where
  implAlive : Bool
  callbackRecursions : Nat
  hasHandle : Bool
  running : Bool
  url : String
  locked : Bool
  hasOnDone : Bool
  hasOnDataRead : Bool
deriving Repr, DecidableEq

/-- State of one `curl_asio::socketinfo` object.

* `isTcp` records which of the `tcp_`/`udp_` wrappers is held;
* `requestedAction` is `requested_action_`;
* `locked` models the self-reference `lock_` being held;
* `pendingRead` / `pendingWrite` model outstanding one-shot asio waits
  on the wrapped socket (cleared by `cancel()`). -/
structure SockState where
  isTcp : Bool
  requestedAction : Nat
  locked : Bool
  pendingRead : Bool
  pendingWrite : Bool
deriving Repr, DecidableEq

/-- State of the `curl_asio::implementation` object.

* `socketsMap` is the key set of `sockets_` (descriptor → socketinfo map);
  the socketinfo objects themselves live in `World.sockStore` because they
  can outlive their map entry through their self-reference;
* `transfersSet` is the id set of `transfers_`;
* `runningCount` is `running_`, `timerPending` models an outstanding
  `timer_.async_wait`. -/
structure Impl where
  terminated : Bool
  timerPending : Bool
  callbackRecursions : Nat
  socketsMap : List Nat
  transfersSet : List Nat
  runningCount : Int
deriving Repr, DecidableEq

/-- The heap: every `transfer` and `socketinfo` object that exists,
addressed by an id (the C++ object identity), plus the `implementation`
state.  Objects persist in the stores even when dropped from the
`implementation`'s containers, exactly because their self-references can
keep them alive. -/
structure World where
  transferStore : Nat → Transfer
  sockStore : Nat → SockState
  impl : Impl

/-- Externally visible effects, recorded in program order. -/
inductive Event where
  /-- `timer_.cancel()` -/
  | timerCancel
  /-- `timer_.expires_from_now(ms); timer_.async_wait(timer_handler)` -/
  | timerScheduled (ms : Int)
  /-- `curl_multi_socket_action(...)` (an engine drive call) -/
  | drive
  /-- `cancel()` on the asio socket wrapped by the socketinfo for `s` -/
  | cancelled (s : Nat)
  /-- `async_wait_read` subscription on `s`, completion routed to
  `async_wait_complete` -/
  | waitRead (s : Nat)
  /-- `async_wait_write` subscription on `s`, completion routed to
  `async_wait_complete` -/
  | waitWrite (s : Nat)
  /-- successful `curl_multi_remove_handle` for the transfer `tid`
  (engine-side unregistration) -/
  | removed (tid : Nat)
  /-- `on_done(result)` invoked on the transfer `tid` -/
  | onDone (tid : Nat) (result : Int)
  /-- `curl_multi_assign(s, sock->add())` -/
  | assigned (s : Nat)
  /-- `curl_multi_assign(s, NULL)` -/
  | assignCleared (s : Nat)
deriving Repr, DecidableEq, BEq

/-- Pointwise update of the transfer store. -/
def updT (st : Nat → Transfer) (k : Nat) (v : Transfer) : Nat → Transfer :=
  fun i => if i = k then v else st i

/-- Pointwise update of the socketinfo store. -/
def updS (st : Nat → SockState) (k : Nat) (v : SockState) : Nat → SockState :=
  fun i => if i = k then v else st i

/-- One message yielded by `curl_multi_info_read`, together with the
oracle outcomes of the external calls made while processing it. -/
structure CurlMsg where
  /-- `msg->msg == CURLMSG_DONE` -/
  isDone : Bool
  /-- identifies `msg->easy_handle` (the transfer it belongs to) -/
  easyId : Nat
  /-- `msg->data.result` -/
  result : Int
  /-- oracle: `transfer::from_easy` resolved to a live transfer
  (`CURLINFO_PRIVATE` lookup succeeded and was non-null) -/
  known : Bool
  /-- oracle: `curl_multi_remove_handle` returned `rc <= CURLM_OK` -/
  removeRcOk : Bool
deriving Repr, DecidableEq

/-! ### socketinfo member functions -/

/-- `socketinfo::cancel()`: cancels the outstanding asio waits on the
wrapped tcp/udp socket.  The `Event.cancelled` trace entry is emitted at
each call site. -/
def SockState.cancel (sk : SockState) : SockState :=
  { sk with pendingRead := false, pendingWrite := false }

/-- `socketinfo::set_requested_action(action)`:
`requested_action_ = action; cancel();`. -/
def SockState.set_requested_action (sk : SockState) (action : Nat) : SockState :=
  SockState.cancel { sk with requestedAction := action }

/-- `socketinfo::remove()`: `cancel(); lock_.reset();`. -/
def SockState.removeSelf (sk : SockState) : SockState :=
  { sk.cancel with locked := false }

/-- `socketinfo::add()`: `lock_ = shared_from_this(); return this;`. -/
def SockState.add (sk : SockState) : SockState :=
  { sk with locked := true }

/-- `socketinfo::create(io, s)`.  The OS probes (`getsockopt(SO_TYPE)`,
`getsockname`) and the resulting type/family are oracle inputs; the
`::dup` into an asio socket object is engine-side and not part of the
bridge state.  Returns `none` exactly when the C++ function returns a
null `shared_ptr`. -/
structure SockProbe where
  getsockoptOk : Bool
  sockType : Nat
  getsocknameOk : Bool
  saFamily : Nat
deriving Repr, DecidableEq

def socketinfo_create (p : SockProbe) : Option SockState :=
  if p.getsockoptOk = false then none
  else if p.getsocknameOk = false then none
  else if p.sockType = SOCK_STREAM then
    if p.saFamily = AF_INET ∨ p.saFamily = AF_INET6 then
      some { isTcp := true, requestedAction := CURL_POLL_NONE, locked := false,
             pendingRead := false, pendingWrite := false }
    else none
  else if p.sockType = SOCK_DGRAM then
    if p.saFamily = AF_INET ∨ p.saFamily = AF_INET6 then
      some { isTcp := false, requestedAction := CURL_POLL_NONE, locked := false,
             pendingRead := false, pendingWrite := false }
    else none
  else none

/-! ### transfer member functions -/

/-- `transfer::init()`: resets an existing easy handle or creates one
(`curl_easy_init`, outcome `easyInitOk`); the `curl_easy_setopt` calls
configure the engine-side handle only.  `none` models the `return false`
path where `curl_easy_init` failed and `handle_` stays null. -/
def Transfer.init (tr : Transfer) (easyInitOk : Bool) : Option Transfer :=
  if tr.hasHandle then some tr
  else if easyInitOk then some { tr with hasHandle := true }
  else none

/-- `transfer::terminate()`: `impl_.reset();`.  Note it does not touch
`lock_` or `running_`. -/
def Transfer.terminate (tr : Transfer) : Transfer :=
  { tr with implAlive := false }

/-- `transfer::lock()`: `lock_ = shared_from_this();`. -/
def Transfer.lock (tr : Transfer) : Transfer :=
  { tr with locked := true }

/-- `transfer::unlock()`: `lock_.reset();`. -/
def Transfer.unlock (tr : Transfer) : Transfer :=
  { tr with locked := false }

/-- `transfer::handle_done(result)`: invokes `on_done(result)` when set
(recorded as an `Event.onDone tid result` trace entry; `tid` names the
transfer in the trace), then sets `running_ = false`. -/
def handle_done (tid : Nat) (tr : Transfer) (result : Int) :
    Transfer × List Event :=
  ({ tr with running := false },
   if tr.hasOnDone then [Event.onDone tid result] else [])

/-- `transfer::write_function(ptr, size)`.  The user classifier
`on_data_read` is the oracle `cb`: it receives the transfer state as
visible during the callback (recursion counter already incremented by the
`callback_protector`) and returns its `data_action` answer together with
the transfer state after the callback (a reentrant `stop()` may have
flipped `running_`).  Returns the byte count reported to curl, the
post-call transfer state, and an instrumentation flag telling whether the
classifier was engaged at all. -/
def write_function (tr : Transfer) (size : Nat)
    (cb : Transfer → DataAction × Transfer) : Nat × Transfer × Bool :=
  if tr.implAlive = true ∧ tr.hasOnDataRead = true then
    let tr0 := { tr with callbackRecursions := tr.callbackRecursions + 1 }
    let r := cb tr0
    let tr2 := { r.2 with callbackRecursions := r.2.callbackRecursions - 1 }
    if tr2.running = false then (0, tr2, true)
    else
      match r.1 with
      | DataAction.success => (size, tr2, true)
      | DataAction.pause => (CURL_WRITEFUNC_PAUSE, tr2, true)
      | DataAction.abort => (0, tr2, true)
  else (size, tr, false)

/-! ### implementation member functions -/

/-- `implementation::add_transfer(trans)`.  `rcOk` is the oracle for
`curl_multi_add_handle(...) <= CURLM_OK` (only consulted when not
terminated, since the call is guarded by `!terminated_`).  `none` models
the `assert(trans->handle_)` firing. -/
def add_transfer (impl : Impl) (tid : Nat) (tr : Transfer) (rcOk : Bool) :
    Option (Bool × Impl × Transfer) :=
  if tr.hasHandle = false then none
  else if impl.terminated = false ∧ rcOk = true then
    some (true,
      { impl with transfersSet :=
          if tid ∈ impl.transfersSet then impl.transfersSet
          else tid :: impl.transfersSet },
      tr.lock)
  else some (false, impl, tr)

/-- `implementation::remove_transfer(trans)`.  `rcOk` is the oracle for
`curl_multi_remove_handle(...) <= CURLM_OK`; on success the transfer is
unlocked and erased from the active set when present, and the engine-side
unregistration is recorded as an `Event.removed` trace entry. -/
def remove_transfer (impl : Impl) (tid : Nat) (tr : Transfer) (rcOk : Bool) :
    Bool × Impl × Transfer × List Event :=
  if rcOk = true then
    if tid ∈ impl.transfersSet then
      (true, { impl with transfersSet := impl.transfersSet.erase tid },
       tr.unlock, [Event.removed tid])
    else (true, impl, tr, [Event.removed tid])
  else (false, impl, tr, [])

/-- `transfer::start(url)`.  `easyInitOk` and `addRcOk` are the oracles
for `curl_easy_init` and `curl_multi_add_handle`; `tid` is the identity
of this transfer.  `none` models an assertion failure inside
`add_transfer`. -/
def start (tid : Nat) (tr : Transfer) (impl : Impl) (url : String)
    (easyInitOk addRcOk : Bool) : Option (Bool × Transfer × Impl) :=
  if tr.running = true ∨ tr.implAlive = false ∨ 0 < tr.callbackRecursions then
    some (false, tr, impl)
  else
    match tr.init easyInitOk with
    | none => some (false, tr, impl)
    | some tr1 =>
      let tr2 := { tr1 with url := url }
      match add_transfer impl tid tr2 addRcOk with
      | none => none
      | some r =>
        if r.1 = true then some (true, { r.2.2 with running := true }, r.2.1)
        else some (false, r.2.2, r.2.1)

/-- `transfer::stop()`.  `rcOk` is the oracle for
`curl_multi_remove_handle` inside `remove_transfer`.  Returns the boolean
result, the transfer and implementation states, and the event trace of
the call. -/
def stop (tid : Nat) (tr : Transfer) (impl : Impl) (rcOk : Bool) :
    Bool × Transfer × Impl × List Event :=
  if tr.running = false ∨ tr.implAlive = false then (false, tr, impl, [])
  else if 0 < tr.callbackRecursions then
    (true, { tr with running := false }, impl, [])
  else
    let r := remove_transfer impl tid tr rcOk
    if r.1 = true then (true, { r.2.2.1 with running := false }, r.2.1, r.2.2.2)
    else (false, r.2.2.1, r.2.1, r.2.2.2)

/-- Processing of one message inside the loop of
`implementation::process_curl_messages`.  A non-`CURLMSG_DONE` message is
ignored.  For a done message, `transfer::from_easy` resolves the handle
(`none` here models the `assert(trans)` firing and aborting), then
`remove_transfer` runs, then `handle_done` — on the same object, so on
the transfer state `remove_transfer` produced. -/
def process_msg (w : World) (m : CurlMsg) : Option World × List Event :=
  if m.isDone = true then
    if m.known = true then
      let tr := w.transferStore m.easyId
      let r := remove_transfer w.impl m.easyId tr m.removeRcOk
      let d := handle_done m.easyId r.2.2.1 m.result
      (some { w with
              impl := r.2.1,
              transferStore := updT w.transferStore m.easyId d.1 },
       r.2.2.2 ++ d.2)
    else (none, [])
  else (some w, [])

/-- `implementation::process_curl_messages()`: drains the list of
messages `curl_multi_info_read` yields (the oracle `msgs`), processing
each in order; an assertion failure aborts the loop. -/
def process_curl_messages : World → List CurlMsg → Option World × List Event
  | w, [] => (some w, [])
  | w, m :: rest =>
    match process_msg w m with
    | (some w1, evs1) =>
      let r := process_curl_messages w1 rest
      (r.1, evs1 ++ r.2)
    | (none, evs1) => (none, evs1)

/-- `implementation::async_wait(s, action, sock)`: reconciles the
passed-in direction with the socketinfo's `requested_action()`, then
issues an independent one-shot wait per set bit, each routed to
`async_wait_complete`.  Returns the updated socketinfo state and the
trace of asio operations. -/
def async_wait (s : Nat) (action : Nat) (sock : SockState) :
    SockState × List Event :=
  let p :=
    if sock.requestedAction = CURL_POLL_INOUT ∨
        (sock.requestedAction ≠ action ∧
         sock.requestedAction ≠ CURL_POLL_NONE) then
      (sock.cancel, [Event.cancelled s], sock.requestedAction)
    else (sock, ([] : List Event), action)
  let p2 :=
    if p.2.2 &&& CURL_POLL_IN ≠ 0 then
      ({ p.1 with pendingRead := true }, [Event.waitRead s])
    else (p.1, ([] : List Event))
  let p3 :=
    if p.2.2 &&& CURL_POLL_OUT ≠ 0 then
      ({ p2.1 with pendingWrite := true }, [Event.waitWrite s])
    else (p2.1, ([] : List Event))
  (p3.1, p.2.1 ++ p2.2 ++ p3.2)

/-- `implementation::timer_handler(err)`.  On a non-cancelled firing it
drives the engine (`curl_multi_socket_action(CURL_SOCKET_TIMEOUT, 0)`,
outcome `rcOk`, new running count `newRunning`) and, when the drive
succeeded, processes completion messages (`msgs` is the oracle for what
`curl_multi_info_read` yields).  The `callback_protector` increments and
decrements `callback_recursions_`, net zero by return. -/
def timer_handler (w : World) (err : Bool) (rcOk : Bool) (newRunning : Int)
    (msgs : List CurlMsg) : Option World × List Event :=
  if err = true then (some w, [])
  else if rcOk = true then
    let w1 := { w with impl := { w.impl with runningCount := newRunning } }
    let r := process_curl_messages w1 msgs
    (r.1, Event.drive :: r.2)
  else (some w, [Event.drive])

/-- `implementation::timer_function(timeout_ms)`: always cancels the
existing timer first; schedules a deferred wait when `timeout_ms > 0`,
otherwise invokes `timer_handler` inline with a default (no-error)
status.  The trailing `Int` is the callback's return value (`0`). -/
def timer_function (w : World) (timeout_ms : Int) (rcOk : Bool)
    (newRunning : Int) (msgs : List CurlMsg) :
    (Option World × List Event) × Int :=
  let w0 := { w with impl := { w.impl with timerPending := false } }
  if 0 < timeout_ms then
    ((some { w0 with impl := { w0.impl with timerPending := true } },
      [Event.timerCancel, Event.timerScheduled timeout_ms]), 0)
  else
    let r := timer_handler w0 false rcOk newRunning msgs
    ((r.1, Event.timerCancel :: r.2), 0)

/-- The tail of `implementation::socket_function` for non-remove actions:
`if (it != sockets_.end()) { if (action != CURL_POLL_NONE) {
set_requested_action(action); async_wait(s, action, it->second); } }`.
The `Event.cancelled` entry records the `cancel()` performed inside
`set_requested_action`. -/
def watch_socket (w : World) (s : Nat) (action : Nat) (evs0 : List Event) :
    Option (World × Int × List Event) :=
  if s ∈ w.impl.socketsMap then
    if action ≠ CURL_POLL_NONE then
      let sk1 := (w.sockStore s).set_requested_action action
      let r := async_wait s action sk1
      some ({ w with sockStore := updS w.sockStore s r.1 }, 0,
            evs0 ++ Event.cancelled s :: r.2)
    else some (w, 0, evs0)
  else some (w, 0, evs0)

/-- `implementation::socket_function(s, action, sock)`.  `sockPassed`
models the `socketp` association pointer being non-null (in which case it
is the socketinfo stored for `s`); `probe` feeds `socketinfo::create`;
`assignRcOk` is the oracle for `curl_multi_assign`.  `none` models one of
the assertions firing.  The `callback_protector` around the body is net
zero by return.  The function returns `0` on every non-aborting path. -/
def socket_function (w : World) (s : Nat) (action : Nat) (sockPassed : Bool)
    (probe : SockProbe) (assignRcOk : Bool) :
    Option (World × Int × List Event) :=
  if action = CURL_POLL_REMOVE then
    if sockPassed = true then
      if assignRcOk = true then
        let w1 := { w with
          sockStore := updS w.sockStore s (w.sockStore s).removeSelf,
          impl := { w.impl with socketsMap := w.impl.socketsMap.erase s } }
        some (w1, 0, [Event.cancelled s, Event.assignCleared s])
      else none
    else
      some ({ w with impl :=
                { w.impl with socketsMap := w.impl.socketsMap.erase s } },
            0, [])
  else
    if sockPassed = false ∧ s ∈ w.impl.socketsMap then none
    else
      let sockOpt := if sockPassed = true then some (w.sockStore s)
                     else socketinfo_create probe
      match sockOpt with
      | some sk =>
        if s ∈ w.impl.socketsMap then watch_socket w s action []
        else
          if assignRcOk = true then
            let w1 := { w with
              sockStore := updS w.sockStore s sk.add,
              impl := { w.impl with socketsMap := s :: w.impl.socketsMap } }
            watch_socket w1 s action [Event.assigned s]
          else none
      | none => some (w, 0, [])

/-- `implementation::terminate()`: asserts not already terminated
(modelled as `none`), sets the flag, cancels the timer, `cancel()`s every
socketinfo in the map and clears the map, `terminate()`s every transfer
in the active set and clears the set.  Note: neither loop releases the
objects' own `lock_` self-references. -/
def terminate (w : World) : Option (World × List Event) :=
  if w.impl.terminated = true then none
  else
    some
      ({ transferStore :=
           w.impl.transfersSet.foldl
             (fun st tid => updT st tid (st tid).terminate) w.transferStore,
         sockStore :=
           w.impl.socketsMap.foldl
             (fun st sid => updS st sid (st sid).cancel) w.sockStore,
         impl := { w.impl with
                   terminated := true,
                   timerPending := false,
                   socketsMap := [],
                   transfersSet := [] } },
       Event.timerCancel :: w.impl.socketsMap.map Event.cancelled)

/-! ### Trace counting helpers -/

/-- Is this event an `on_done` firing for transfer `t`? -/
def isOnDoneFor (t : Nat) : Event → Bool
  | Event.onDone tid _ => tid == t
  | _ => false

/-- Number of `on_done` firings for transfer `t` in a trace. -/
def countOnDone (t : Nat) (evs : List Event) : Nat :=
  (evs.filter (isOnDoneFor t)).length

/-- Is this a `CURLMSG_DONE` message for transfer `t`? -/
def isDoneFor (t : Nat) (m : CurlMsg) : Bool :=
  m.isDone && (m.easyId == t)

/-- Number of `CURLMSG_DONE` messages for transfer `t` in a batch. -/
def countDone (t : Nat) (msgs : List CurlMsg) : Nat :=
  (msgs.filter (isDoneFor t)).length

/-! ### Concrete fixtures used by witnesses and counterexamples -/

/-- A transfer in flight: started, registered, both callbacks set. -/
def exTransfer : Transfer :=
  { implAlive := true, callbackRecursions := 0, hasHandle := true,
    running := true, url := "http://host/a", locked := true,
    hasOnDone := true, hasOnDataRead := true }

/-- The same transfer as seen from inside its own data callback. -/
def exRecTransfer : Transfer :=
  { exTransfer with callbackRecursions := 1 }

/-- A transfer with no data classifier installed. -/
def exNoCbTransfer : Transfer :=
  { exTransfer with hasOnDataRead := false }

/-- A registered socketinfo with an outstanding read wait. -/
def exSock : SockState :=
  { isTcp := true, requestedAction := CURL_POLL_IN, locked := true,
    pendingRead := true, pendingWrite := false }

/-- A socketinfo whose last requested direction is both. -/
def exSockInOut : SockState :=
  { exSock with requestedAction := CURL_POLL_INOUT }

/-- A live implementation with one socket (descriptor 5) and one active
transfer (id 0). -/
def exImpl : Impl :=
  { terminated := false, timerPending := true, callbackRecursions := 0,
    socketsMap := [5], transfersSet := [0], runningCount := 1 }

/-- A live world built from the fixtures above. -/
def exWorld : World :=
  { transferStore := fun _ => exTransfer,
    sockStore := fun _ => exSock,
    impl := exImpl }

/-- A successful `CURLMSG_DONE` message for transfer 0. -/
def exMsg : CurlMsg :=
  { isDone := true, easyId := 0, result := 0, known := true,
    removeRcOk := true }

/-- A classifier that always answers `pause` and touches nothing. -/
def exPauseCb : Transfer → DataAction × Transfer :=
  fun t => (DataAction.pause, t)

/-- A probe for which `getsockopt(SO_TYPE)` fails, so
`socketinfo::create` returns null. -/
def exBadProbe : SockProbe :=
  { getsockoptOk := false, sockType := SOCK_STREAM,
    getsocknameOk := true, saFamily := AF_INET }

/-- A probe describing a healthy IPv4 TCP socket. -/
def exGoodProbe : SockProbe :=
  { getsockoptOk := true, sockType := SOCK_STREAM,
    getsocknameOk := true, saFamily := AF_INET }

/-! ### Theorems -/

/-- Claim C4: `start(url)` returns false and performs no state mutation
(running flag, URL, engine registration, active set all unchanged)
whenever the handle is already running, its bridge reference is gone, or
its data-callback recursion counter is positive. -/
theorem claim4_start_refused (tid : Nat) (tr : Transfer) (impl : Impl)
    (url : String) (easyInitOk addRcOk : Bool)
    (h : tr.running = true ∨ tr.implAlive = false ∨ 0 < tr.callbackRecursions) :
    start tid tr impl url easyInitOk addRcOk = some (false, tr, impl) := by
  unfold start
  rw [if_pos h]

/-- Witness for C4 at a running transfer. -/
theorem claim4_witness :
    start 0 exTransfer exImpl "http://host/b" true true
      = some (false, exTransfer, exImpl) :=
  claim4_start_refused 0 exTransfer exImpl "http://host/b" true true
    (Or.inl rfl)

/-- Claim C5: for a running transfer with a live bridge, `stop()` under
recursion defers (no engine unregistration event, running observably
false, returns true); with recursion zero and the engine accepting the
removal it unregisters immediately via `remove_transfer`. -/
theorem claim5_stop_deferred (tid : Nat) (tr : Transfer) (impl : Impl)
    (rcOk : Bool) (hrun : tr.running = true) (halive : tr.implAlive = true) :
    (0 < tr.callbackRecursions →
      stop tid tr impl rcOk = (true, { tr with running := false }, impl, [])) ∧
    (tr.callbackRecursions = 0 → rcOk = true →
      (stop tid tr impl rcOk).1 = true ∧
      (stop tid tr impl rcOk).2.1.running = false ∧
      (stop tid tr impl rcOk).2.2.2 = [Event.removed tid]) := by
  have hcond : ¬(tr.running = false ∨ tr.implAlive = false) := by
    simp [hrun, halive]
  constructor
  · intro hrec
    unfold stop
    rw [if_neg hcond, if_pos hrec]
  · intro hrec hrc
    have hrec2 : ¬ 0 < tr.callbackRecursions := by omega
    unfold stop
    rw [if_neg hcond, if_neg hrec2]
    unfold remove_transfer
    rw [if_pos hrc]
    by_cases hmem : tid ∈ impl.transfersSet
    · rw [if_pos hmem]; simp
    · rw [if_neg hmem]; simp

/-- Witness for C5: a deferred stop from inside the data callback and an
immediate stop outside of it. -/
theorem claim5_witness :
    stop 0 exRecTransfer exImpl true
      = (true, { exRecTransfer with running := false }, exImpl, []) ∧
    ((stop 0 exTransfer exImpl true).1 = true ∧
     (stop 0 exTransfer exImpl true).2.1.running = false ∧
     (stop 0 exTransfer exImpl true).2.2.2 = [Event.removed 0]) :=
  ⟨(claim5_stop_deferred 0 exRecTransfer exImpl true rfl rfl).1 (by decide),
   (claim5_stop_deferred 0 exTransfer exImpl true rfl rfl).2 rfl rfl⟩

/-- Claim C6: with a live bridge and a classifier set, the delivery
primitive returns the pause sentinel (distinct from zero and from the
chunk size) on `pause`, zero on `abort`, the full size on `success`, and
zero whenever the running flag was flipped false during the classifier
callback. -/
theorem claim6_write_function_actions (tr : Transfer) (size : Nat)
    (cb : Transfer → DataAction × Transfer)
    (halive : tr.implAlive = true) (hcb : tr.hasOnDataRead = true)
    (hsize : size ≤ CURL_MAX_WRITE_SIZE) :
    ((cb { tr with callbackRecursions := tr.callbackRecursions + 1 }).2.running
        = false → (write_function tr size cb).1 = 0) ∧
    ((cb { tr with callbackRecursions := tr.callbackRecursions + 1 }).2.running
        = true →
      ((cb { tr with callbackRecursions := tr.callbackRecursions + 1 }).1
          = DataAction.pause →
        (write_function tr size cb).1 = CURL_WRITEFUNC_PAUSE ∧
        (write_function tr size cb).1 ≠ 0 ∧
        (write_function tr size cb).1 ≠ size) ∧
      ((cb { tr with callbackRecursions := tr.callbackRecursions + 1 }).1
          = DataAction.abort → (write_function tr size cb).1 = 0) ∧
      ((cb { tr with callbackRecursions := tr.callbackRecursions + 1 }).1
          = DataAction.success → (write_function tr size cb).1 = size)) := by
  constructor
  · intro hstop
    unfold write_function
    rw [if_pos ⟨halive, hcb⟩]
    simp [hstop]
  · intro hrun
    refine ⟨?_, ?_, ?_⟩
    · intro ha
      have hval : (write_function tr size cb).1 = CURL_WRITEFUNC_PAUSE := by
        unfold write_function
        rw [if_pos ⟨halive, hcb⟩]
        simp [hrun, ha]
      refine ⟨hval, ?_, ?_⟩
      · rw [hval]
        unfold CURL_WRITEFUNC_PAUSE
        omega
      · rw [hval]
        unfold CURL_WRITEFUNC_PAUSE
        unfold CURL_MAX_WRITE_SIZE at hsize
        omega
    · intro ha
      unfold write_function
      rw [if_pos ⟨halive, hcb⟩]
      simp [hrun, ha]
    · intro ha
      unfold write_function
      rw [if_pos ⟨halive, hcb⟩]
      simp [hrun, ha]

/-- Witness for C6: a pausing classifier on a 100-byte chunk. -/
theorem claim6_witness :
    (write_function exTransfer 100 exPauseCb).1 = CURL_WRITEFUNC_PAUSE ∧
    (write_function exTransfer 100 exPauseCb).1 ≠ 0 ∧
    (write_function exTransfer 100 exPauseCb).1 ≠ 100 :=
  ((claim6_write_function_actions exTransfer 100 exPauseCb rfl rfl
      (by decide)).2 rfl).1 rfl

/-- Claim C7: `timer_function` first cancels the existing timer; a
positive timeout schedules a deferred wait (no synchronous drive), a
timeout `<= 0` invokes `timer_handler` inline with a no-error status, so
the engine drive happens before the call returns. -/
theorem claim7_timer_function (w : World) (tms : Int) (rcOk : Bool)
    (nr : Int) (msgs : List CurlMsg) :
    (0 < tms →
      (timer_function w tms rcOk nr msgs).1.2
        = [Event.timerCancel, Event.timerScheduled tms] ∧
      Event.drive ∉ (timer_function w tms rcOk nr msgs).1.2 ∧
      ∃ w1, (timer_function w tms rcOk nr msgs).1.1 = some w1 ∧
        w1.impl.timerPending = true) ∧
    (tms ≤ 0 →
      (timer_function w tms rcOk nr msgs).1.2
        = Event.timerCancel ::
            (timer_handler
              { w with impl := { w.impl with timerPending := false } }
              false rcOk nr msgs).2 ∧
      Event.drive ∈ (timer_function w tms rcOk nr msgs).1.2) := by
  constructor
  · intro hpos
    unfold timer_function
    rw [if_pos hpos]
    refine ⟨rfl, by simp, _, rfl, rfl⟩
  · intro hnp
    have hcond : ¬ 0 < tms := by omega
    unfold timer_function
    rw [if_neg hcond]
    refine ⟨rfl, ?_⟩
    unfold timer_handler
    cases hrc : rcOk <;> simp [hrc]

/-- Witness for C7: a deferred 7ms schedule and a synchronous run-now
request on the same world. -/
theorem claim7_witness :
    ((timer_function exWorld 7 true 1 []).1.2
        = [Event.timerCancel, Event.timerScheduled 7] ∧
      Event.drive ∉ (timer_function exWorld 7 true 1 []).1.2 ∧
      ∃ w1, (timer_function exWorld 7 true 1 []).1.1 = some w1 ∧
        w1.impl.timerPending = true) ∧
    ((timer_function exWorld 0 true 1 []).1.2
        = Event.timerCancel ::
            (timer_handler
              { exWorld with
                impl := { exWorld.impl with timerPending := false } }
              false true 1 []).2 ∧
      Event.drive ∈ (timer_function exWorld 0 true 1 []).1.2) :=
  ⟨(claim7_timer_function exWorld 7 true 1 []).1 (by decide),
   (claim7_timer_function exWorld 0 true 1 []).2 (by decide)⟩

/-- Claim C8: when the socketinfo's last-requested direction is both, or
differs from `action` and is not none, `async_wait` cancels the existing
waits and uses the requested direction as the effective subscription:
one independent one-shot read wait per set read bit and write wait per
set write bit, each routed to `async_wait_complete`. -/
theorem claim8_async_wait_reconcile (s action : Nat) (sock : SockState)
    (h : sock.requestedAction = CURL_POLL_INOUT ∨
         (sock.requestedAction ≠ action ∧
          sock.requestedAction ≠ CURL_POLL_NONE)) :
    (async_wait s action sock).2
      = Event.cancelled s ::
          ((if sock.requestedAction &&& CURL_POLL_IN ≠ 0
            then [Event.waitRead s] else []) ++
           (if sock.requestedAction &&& CURL_POLL_OUT ≠ 0
            then [Event.waitWrite s] else [])) := by
  unfold async_wait
  rw [if_pos h]
  by_cases h1 : sock.requestedAction &&& CURL_POLL_IN ≠ 0 <;>
    by_cases h2 : sock.requestedAction &&& CURL_POLL_OUT ≠ 0 <;>
      simp [h1, h2]

/-- Witness for C8: a read-direction firing against a socket whose
requested direction is both. -/
theorem claim8_witness :
    (async_wait 5 CURL_POLL_IN exSockInOut).2
      = Event.cancelled 5 ::
          ((if exSockInOut.requestedAction &&& CURL_POLL_IN ≠ 0
            then [Event.waitRead 5] else []) ++
           (if exSockInOut.requestedAction &&& CURL_POLL_OUT ≠ 0
            then [Event.waitWrite 5] else [])) :=
  claim8_async_wait_reconcile 5 CURL_POLL_IN exSockInOut (Or.inl rfl)

/-- Claim C10: a chunk delivered with no classifier set, or with the
bridge reference gone, is reported as fully consumed: the delivery
primitive returns the chunk size, leaves the transfer untouched, and
never engages the classifier or the recursion guard. -/
theorem claim10_no_classifier_discard (tr : Transfer) (size : Nat)
    (cb : Transfer → DataAction × Transfer)
    (h : tr.implAlive = false ∨ tr.hasOnDataRead = false) :
    write_function tr size cb = (size, tr, false) := by
  have hcond : ¬(tr.implAlive = true ∧ tr.hasOnDataRead = true) := by
    rcases h with h | h <;> simp [h]
  unfold write_function
  rw [if_neg hcond]

/-- Witness for C10: a transfer with no `on_data_read` silently discards
a 100-byte chunk. -/
theorem claim10_witness :
    write_function exNoCbTransfer 100 exPauseCb = (100, exNoCbTransfer, false) :=
  claim10_no_classifier_discard exNoCbTransfer 100 exPauseCb (Or.inr rfl)

/-! ### Trace-counting lemmas for completion dispatch -/

theorem countOnDone_append (t : Nat) (a b : List Event) :
    countOnDone t (a ++ b) = countOnDone t a + countOnDone t b := by
  simp [countOnDone, List.filter_append]

theorem countOnDone_remove_transfer (t : Nat) (impl : Impl) (tid : Nat)
    (tr : Transfer) (rcOk : Bool) :
    countOnDone t (remove_transfer impl tid tr rcOk).2.2.2 = 0 := by
  unfold remove_transfer
  split
  · split <;> simp [countOnDone, isOnDoneFor]
  · simp [countOnDone]

theorem countOnDone_handle_done (t tid : Nat) (tr : Transfer) (res : Int) :
    countOnDone t (handle_done tid tr res).2
      = if tr.hasOnDone = true ∧ tid = t then 1 else 0 := by
  unfold handle_done
  by_cases hc : tr.hasOnDone = true
  · by_cases ht : tid = t <;> simp [hc, ht, countOnDone, isOnDoneFor]
  · simp [hc, countOnDone]

theorem countOnDone_process_msg (w : World) (m : CurlMsg) (t : Nat) :
    countOnDone t (process_msg w m).2
      ≤ if isDoneFor t m = true then 1 else 0 := by
  by_cases hd : m.isDone = true
  · by_cases hk : m.known = true
    · have hred : (process_msg w m).2
          = (remove_transfer w.impl m.easyId (w.transferStore m.easyId)
              m.removeRcOk).2.2.2
            ++ (handle_done m.easyId
                 (remove_transfer w.impl m.easyId (w.transferStore m.easyId)
                   m.removeRcOk).2.2.1 m.result).2 := by
        simp [process_msg, hd, hk]
      rw [hred, countOnDone_append, countOnDone_remove_transfer,
          countOnDone_handle_done]
      have hdf : isDoneFor t m = (m.easyId == t) := by simp [isDoneFor, hd]
      rw [hdf]
      by_cases ht : m.easyId = t
      · simp only [ht, Nat.zero_add, beq_self_eq_true, if_true]
        split <;> omega
      · have hbeq : (m.easyId == t) = false := by simp [ht]
        simp [hbeq, ht]
    · simp [process_msg, hd, hk, countOnDone]
  · simp [process_msg, hd, countOnDone]

theorem countDone_cons (t : Nat) (m : CurlMsg) (rest : List CurlMsg) :
    countDone t (m :: rest)
      = (if isDoneFor t m = true then 1 else 0) + countDone t rest := by
  unfold countDone
  rw [List.filter_cons]
  split <;> simp [Nat.add_comm]

theorem countOnDone_process_le (t : Nat) (msgs : List CurlMsg) :
    ∀ w : World, countOnDone t (process_curl_messages w msgs).2
      ≤ countDone t msgs := by
  induction msgs with
  | nil => intro w; simp [process_curl_messages, countOnDone, countDone]
  | cons m rest ih =>
    intro w
    rw [countDone_cons]
    unfold process_curl_messages
    cases hpm : process_msg w m with
    | mk ow evs =>
      have h1 : countOnDone t evs ≤ if isDoneFor t m = true then 1 else 0 := by
        have h0 := countOnDone_process_msg w m t
        rw [hpm] at h0
        exact h0
      cases ow with
      | some w1 =>
        simp only [hpm]
        rw [countOnDone_append]
        have h2 := ih w1
        omega
      | none =>
        simp only [hpm]
        omega

/-- Claim C1: per start/completion cycle `on_done` fires at most once:
with at most one `CURLMSG_DONE` message per transfer in a drained batch
(libcurl's guarantee), the dispatch trace contains at most one `on_done`
firing for that transfer, and `handle_done` invokes `on_done` (when set)
exactly once and flips running back to false. -/
theorem claim1_on_done_at_most_once (w : World) (msgs : List CurlMsg)
    (t : Nat) (hmsgs : countDone t msgs ≤ 1) :
    countOnDone t (process_curl_messages w msgs).2 ≤ 1 ∧
    ∀ (tr : Transfer) (res : Int), tr.hasOnDone = true →
      (handle_done t tr res).2 = [Event.onDone t res] ∧
      (handle_done t tr res).1.running = false := by
  refine ⟨le_trans (countOnDone_process_le t msgs w) hmsgs, ?_⟩
  intro tr res hcb
  exact ⟨by simp [handle_done, hcb], by simp [handle_done]⟩

/-- Witness for C1: one done message for transfer 0 yields at most one
`on_done` firing, and `handle_done` on a transfer with `on_done` set
fires it once and clears running. -/
theorem claim1_witness :
    countOnDone 0 (process_curl_messages exWorld [exMsg]).2 ≤ 1 ∧
    ((handle_done 0 exTransfer 0).2 = [Event.onDone 0 0] ∧
     (handle_done 0 exTransfer 0).1.running = false) :=
  ⟨(claim1_on_done_at_most_once exWorld [exMsg] 0 (by decide)).1,
   (claim1_on_done_at_most_once exWorld [exMsg] 0 (by decide)).2
     exTransfer 0 rfl⟩

/-- Counterexample to C2 as stated: dispatching a completed transfer
emits the engine-side unregistration (`Event.removed`, from
`remove_transfer`: `curl_multi_remove_handle`, erasure from the active
set, release of the self-reference) strictly *before* `on_done` fires —
the code calls `remove_transfer(trans)` and only then
`trans->handle_done(...)` — so `on_done` does not fire before the
unregistration is observable as removed. -/
theorem claim2_counterexample :
    (process_msg exWorld exMsg).2
      = [Event.removed 0, Event.onDone 0 0] ∧
    ¬ (process_msg exWorld exMsg).2.indexOf (Event.onDone 0 0)
        < (process_msg exWorld exMsg).2.indexOf (Event.removed 0) := by
  decide

/-- Claim C2 (amended): for every completed transfer dispatched by
`process_curl_messages`, the engine-side unregistration
(`remove_transfer`) is performed and becomes observable *before* the
transfer's `on_done` fires. -/
theorem claim2_unregister_before_on_done (w : World) (m : CurlMsg)
    (hd : m.isDone = true) (hk : m.known = true) (hrc : m.removeRcOk = true)
    (hcb : (w.transferStore m.easyId).hasOnDone = true) :
    (process_msg w m).2
      = [Event.removed m.easyId, Event.onDone m.easyId m.result] := by
  by_cases hmem : m.easyId ∈ w.impl.transfersSet <;>
    simp [process_msg, hd, hk, remove_transfer, handle_done, hrc, hcb, hmem,
          Transfer.unlock]

/-- Witness for C2 (amended) at a one-transfer world. -/
theorem claim2_witness :
    (process_msg exWorld exMsg).2 = [Event.removed 0, Event.onDone 0 0] :=
  claim2_unregister_before_on_done exWorld exMsg rfl rfl rfl rfl

/-! ### Pointwise evaluation of the terminate loops -/

theorem foldl_cancel_apply (l : List Nat) (st : Nat → SockState) (sid : Nat) :
    (l.foldl (fun st2 i => updS st2 i (st2 i).cancel) st) sid
      = if sid ∈ l then (st sid).cancel else st sid := by
  induction l generalizing st with
  | nil => simp
  | cons a l ih =>
    rw [List.foldl_cons, ih]
    by_cases hsa : sid = a
    · subst hsa
      by_cases hl : sid ∈ l <;> simp [hl, updS, SockState.cancel]
    · by_cases hl : sid ∈ l <;> simp [hl, hsa, updS]

theorem foldl_detach_apply (l : List Nat) (st : Nat → Transfer) (tid : Nat) :
    (l.foldl (fun st2 i => updT st2 i (st2 i).terminate) st) tid
      = if tid ∈ l then (st tid).terminate else st tid := by
  induction l generalizing st with
  | nil => simp
  | cons a l ih =>
    rw [List.foldl_cons, ih]
    by_cases hsa : tid = a
    · subst hsa
      by_cases hl : tid ∈ l <;> simp [hl, updT, Transfer.terminate]
    · by_cases hl : tid ∈ l <;> simp [hl, hsa, updT]

/-- Counterexample to C3 as stated: after `terminate()` on a live world
with one registered socket (descriptor 5) and one active transfer
(id 0), both objects still hold their `lock_` self-references —
`terminate` only calls `socketinfo::cancel()` (not `remove()`, which is
what resets `lock_`) and `transfer::terminate()` (which resets `impl_`
but not `lock_`) — so the claimed synchronous release of every
self-reference does not happen. -/
theorem claim3_counterexample :
    (terminate exWorld).map
        (fun p => ((p.1.sockStore 5).locked, (p.1.transferStore 0).locked))
      = some (true, true) := rfl

/-- Claim C3 (amended): after `terminate()` returns, `terminated` is
true, the timer is cancelled, every mapped socket's waits are cancelled,
the descriptor map is cleared, every active transfer is detached from
the bridge and the active set is cleared; the `lock_` self-references of
SocketStates and TransferHandles are, however, left unreleased
(unchanged). -/
theorem claim3_terminate_effects (w : World)
    (h : w.impl.terminated = false) :
    ∃ p : World × List Event, terminate w = some p ∧
      p.1.impl.terminated = true ∧
      p.1.impl.timerPending = false ∧
      p.1.impl.socketsMap = [] ∧
      p.1.impl.transfersSet = [] ∧
      (∀ sid ∈ w.impl.socketsMap,
        (p.1.sockStore sid).pendingRead = false ∧
        (p.1.sockStore sid).pendingWrite = false ∧
        (p.1.sockStore sid).locked = (w.sockStore sid).locked) ∧
      (∀ tid ∈ w.impl.transfersSet,
        (p.1.transferStore tid).implAlive = false ∧
        (p.1.transferStore tid).locked = (w.transferStore tid).locked) := by
  have hc : ¬ w.impl.terminated = true := by simp [h]
  unfold terminate
  rw [if_neg hc]
  refine ⟨_, rfl, rfl, rfl, rfl, rfl, ?_, ?_⟩
  · intro sid hsid
    simp only [foldl_cancel_apply]
    simp [hsid, SockState.cancel]
  · intro tid htid
    simp only [foldl_detach_apply]
    simp [htid, Transfer.terminate]

/-- Witness for C3 (amended) at the live example world. -/
theorem claim3_witness :
    ∃ p : World × List Event, terminate exWorld = some p ∧
      p.1.impl.terminated = true ∧
      p.1.impl.timerPending = false ∧
      p.1.impl.socketsMap = [] ∧
      p.1.impl.transfersSet = [] ∧
      (∀ sid ∈ exWorld.impl.socketsMap,
        (p.1.sockStore sid).pendingRead = false ∧
        (p.1.sockStore sid).pendingWrite = false ∧
        (p.1.sockStore sid).locked = (exWorld.sockStore sid).locked) ∧
      (∀ tid ∈ exWorld.impl.transfersSet,
        (p.1.transferStore tid).implAlive = false ∧
        (p.1.transferStore tid).locked = (exWorld.transferStore tid).locked) :=
  claim3_terminate_effects exWorld rfl

/-- Counterexample to C9 as stated: with a failing descriptor probe the
socket callback creates and inserts nothing, but it still returns `0` —
the very value every successful path returns — so the failure is *not*
propagated upward through the callback's return value. -/
theorem claim9_counterexample :
    socket_function exWorld 3 CURL_POLL_IN false exBadProbe true
      = some (exWorld, 0, []) ∧
    (socket_function exWorld 3 CURL_POLL_IN false exGoodProbe true).map
        (fun r => r.2.1) = some 0 :=
  ⟨rfl, rfl⟩

/-- Claim C9 (amended): when the descriptor type probe fails during the
engine's socket callback, no SocketState is created or inserted into the
descriptor map (the world is returned unchanged and no reactor operation
is issued); the callback's return value, however, is still `0`
(success) — the failure is not reported through it. -/
theorem claim9_socket_setup_failure (w : World) (s action : Nat)
    (probe : SockProbe) (assignRcOk : Bool)
    (hact : action ≠ CURL_POLL_REMOVE)
    (hcreate : socketinfo_create probe = none)
    (hmap : s ∉ w.impl.socketsMap) :
    socket_function w s action false probe assignRcOk = some (w, 0, []) := by
  unfold socket_function
  rw [if_neg hact]
  have hcond : ¬ ((false : Bool) = false ∧ s ∈ w.impl.socketsMap) := by
    simp [hmap]
  rw [if_neg hcond]
  simp [hcreate]

/-- Witness for C9 (amended): the failing probe on a fresh descriptor. -/
theorem claim9_witness :
    socket_function exWorld 7 CURL_POLL_IN false exBadProbe true
      = some (exWorld, 0, []) :=
  claim9_socket_setup_failure exWorld 7 CURL_POLL_IN exBadProbe true
    (by decide) rfl (by decide)

end CurlAsio
